import Mathlib

/-!
Verification development for the balaio submission-processing system.

The definitions below are a shallow embedding of the Python sources:
`balaio/lib/notifier.py`, `balaio/checkout.py` and `balaio/validator.py`.
Persistent model classes (`models.Attempt`, `models.ArticlePkg`,
`models.Checkpoint`, `models.Point`, `models.Status`) are not part of the
source tree; they are modelled from the specification where needed, and each
such definition says so in its doc comment.

External effects (remote registry calls, static-storage uploads, logging,
transaction management) are made explicit: every operation returns, next to
its Python return value, the list of observable events it emitted, and
fallible Python code returns `Except PyErr`.  Remote registry calls are
driven by oracle records of functions, so a theorem quantified over the
oracle covers every remote behaviour (success, remote-API failure).
-/

/-- A Python exception, as observed by the embedded code. -/
inductive PyErr where
  | unboundLocal
  | integrityError
  | assertionError
  | stopIteration
  | keyError
  | valueError
  | apiError (msg : String)
  | other (msg : String)
deriving DecidableEq

/-- The `e.message` attribute used when formatting log lines. -/
def PyErr.message : PyErr → String
  | .unboundLocal => "local variable referenced before assignment"
  | .integrityError => "IntegrityError"
  | .assertionError => "AssertionError"
  | .stopIteration => ""
  | .keyError => "KeyError"
  | .valueError => "ValueError"
  | .apiError m => m
  | .other m => m

/-- Modelled from the spec: `models.Point`, the closed set of workflow
points (checkin, validation, checkout). -/
inductive Point where
  | checkin
  | validation
  | checkout
deriving DecidableEq

/-- The `.name` attribute of a `Point` enum member. -/
def Point.name : Point → String
  | .checkin => "checkin"
  | .validation => "validation"
  | .checkout => "checkout"

/-- Modelled from the spec: `models.Status`, notice severities plus the two
lifecycle markers used only for start/end notifications. -/
inductive Status where
  | ok
  | warning
  | error
  | SERV_BEGIN
  | SERV_END
deriving DecidableEq

/-- The `.name` attribute of a `Status` enum member. -/
def Status.name : Status → String
  | .ok => "ok"
  | .warning => "warning"
  | .error => "error"
  | .SERV_BEGIN => "SERV_BEGIN"
  | .SERV_END => "SERV_END"

/-- Modelled from the spec: `models.ArticlePkg` — identity of the article
across attempts: ISSNs, titles, issue label. -/
structure ArticlePkg where
  id : Nat
  article_title : String
  journal_title : String
  issue_label : String
  journal_pissn : Option String
  journal_eissn : Option String
deriving DecidableEq

/-- Modelled from the spec: the fields of `models.Attempt` read or written
by the Notifier: id, owning package, submission metadata and the registry
back-reference `checkin_uri` (unset until a checkin notification succeeds). -/
structure NAttempt where
  id : Nat
  articlepkg : ArticlePkg
  xml_filename : String
  started_at : String
  email_submitted : String
  checkin_uri : Option String
deriving DecidableEq

/-- Modelled from the spec: a Notice `(message, status, optional label)`
attached to a Checkpoint, append-only. -/
structure Notice where
  message : String
  status : Status
  label : Option String
deriving DecidableEq

/-- Modelled from the spec: `models.Checkpoint` — composite of an Attempt
reference, a Point, accumulated notices and start/end timestamps
(abstracted to flags). -/
structure Checkpoint where
  point : Point
  attempt : NAttempt
  notices : List Notice
  is_started : Bool
  is_ended : Bool
deriving DecidableEq

/-- Modelled from the spec: `models.Checkpoint.tell` appends a Notice to the
checkpoint's accumulated notices (append-only). -/
def Checkpoint.tell (cp : Checkpoint) (message : String) (status : Status)
    (label : Option String) : Checkpoint :=
  { cp with notices := cp.notices ++ [⟨message, status, label⟩] }

/-- Modelled from the spec: `models.Checkpoint.start` timestamps the start
of the workflow point. -/
def Checkpoint.start (cp : Checkpoint) : Checkpoint :=
  { cp with is_started := true }

/-- Modelled from the spec: `models.Checkpoint.end` timestamps the end of
the workflow point. -/
def Checkpoint.end' (cp : Checkpoint) : Checkpoint :=
  { cp with is_ended := true }

/-- Modelled from the spec: `models.Checkpoint(point)` followed by binding
`checkpoint.attempt = attempt` — lazy creation in the notifier factory. -/
def Checkpoint.new (point : Point) (attempt : NAttempt) : Checkpoint :=
  { point := point, attempt := attempt, notices := []
    is_started := false, is_ended := false }

/-- The payload dict posted to `notices.post` (also used by the checkout
notification, which posts to the same endpoint). -/
structure NoticeData where
  checkin : Option String
  stage : Option String
  checkpoint : String
  message : String
  status : String
deriving DecidableEq

/-- The payload dict posted to `checkins_articles.post`. -/
structure CheckinArticleData where
  articlepkg_ref : String
  article_title : String
  journal_title : String
  issue_label : String
  pissn : Option String
  eissn : Option String
deriving DecidableEq

/-- The payload dict posted to `checkins.post`. -/
structure CheckinData where
  attempt_ref : String
  package_name : String
  uploaded_at : String
  article : String
  submitted_by : String
deriving DecidableEq

/-- Oracle for the `scieloapi` client used by the Notifier.  Per the spec's
external-interface contract, every call may raise a remote-API error
(`scieloapi.exceptions.APIError`), represented by `Except.error msg`. -/
structure ScieloApi where
  notices_post : NoticeData → Except String Unit
  checkins_articles_post : CheckinArticleData → Except String Nat
  checkins_post : CheckinData → Except String Nat

/-- Observable events emitted by Notifier operations: remote registry calls,
log records, transaction operations, and markers recording entry into the
checkin/checkout notification methods (one marker per invocation). -/
inductive NEv where
  | noticesPost (p : NoticeData)
  | checkinsArticlesPost (p : CheckinArticleData)
  | checkinsPost (p : CheckinData)
  | checkinNotifCall
  | checkoutNotifCall
  | logWarn (m : String)
  | logErr (m : String)
  | logDebug (m : String)
  | txCommit
  | txAbort
deriving DecidableEq

/-- Whether an event is a call to the external registry client. -/
def NEv.isApiCall : NEv → Bool
  | .noticesPost _ => true
  | .checkinsArticlesPost _ => true
  | .checkinsPost _ => true
  | _ => false

/-- Whether an event is a transaction operation (commit or abort). -/
def NEv.isTxOp : NEv → Bool
  | .txCommit => true
  | .txAbort => true
  | _ => false

/-- The payload of a `notices.post` call, if the event is one. -/
def NEv.noticePayload : NEv → Option NoticeData
  | .noticesPost p => some p
  | _ => none

/-- `lib/notifier.py`, `Notifier.__init__`: holds the checkpoint, the
registry client binding (kept outside as the `ScieloApi` oracle), the db
session (abstracted to its dirty flag, which no Notifier method touches)
and the `manager_integration` toggle. -/
structure Notifier where
  checkpoint : Checkpoint
  db_session_dirty : Bool
  manager_integration : Bool
deriving DecidableEq

/-- The dict built by `Notifier._send_notice_notification`. -/
def mkNoticeData (n : Notifier) (message : String) (status : Status)
    (label : Option String) : NoticeData :=
  { checkin := n.checkpoint.attempt.checkin_uri
    stage := label
    checkpoint := n.checkpoint.point.name
    message := message
    status := status.name }

/-- `lib/notifier.py`, `Notifier._send_notice_notification`: builds the
notice dict, logs it, skips remote delivery when manager integration is
disabled, otherwise posts it and logs (without re-raising) any remote-API
error.  It never mutates the notifier and never raises. -/
def sendNoticeNotification (api : ScieloApi) (n : Notifier) (message : String)
    (status : Status) (label : Option String) : List NEv :=
  let data := mkNoticeData n message status label
  let t0 := [NEv.logDebug "Notification about to be sent to Manager"]
  if !n.manager_integration then
    t0 ++ [NEv.logWarn "Notifications to Manager are disabled. Skipping."]
  else
    t0 ++ [NEv.noticesPost data] ++
      (match api.notices_post data with
       | .ok _ => []
       | .error e => [NEv.logErr ("Error posting data to Manager. Message: " ++ e)])

/-- The dict built by `Notifier._send_checkout_notification`. -/
def mkCheckoutData (n : Notifier) : NoticeData :=
  { checkin := n.checkpoint.attempt.checkin_uri
    stage := some "checkout"
    checkpoint := n.checkpoint.point.name
    message := "checkout finished"
    status := "ok" }

/-- `lib/notifier.py`, `Notifier._send_checkout_notification`: emits its
invocation marker, returns early when manager integration is disabled,
asserts the point is `checkout`, posts the checkout-finished notice and
logs (without re-raising) any remote-API error. -/
def sendCheckoutNotification (api : ScieloApi) (n : Notifier) :
    Except PyErr Unit × List NEv :=
  let entry := [NEv.checkoutNotifCall]
  if !n.manager_integration then
    (.ok (), entry ++ [NEv.logWarn "Notifications to Manager are disabled. Skipping."])
  else if n.checkpoint.point ≠ Point.checkout then
    (.error .assertionError, entry)
  else
    let data := mkCheckoutData n
    (.ok (), entry ++ [NEv.noticesPost data] ++
      (match api.notices_post data with
       | .ok _ => []
       | .error e => [NEv.logErr ("Error posting data to Manager. Message: " ++ e)]))

/-- The `data_article` dict built by `Notifier._send_checkin_notification`. -/
def mkDataArticle (n : Notifier) : CheckinArticleData :=
  { articlepkg_ref := toString n.checkpoint.attempt.articlepkg.id
    article_title := n.checkpoint.attempt.articlepkg.article_title
    journal_title := n.checkpoint.attempt.articlepkg.journal_title
    issue_label := n.checkpoint.attempt.articlepkg.issue_label
    pissn := n.checkpoint.attempt.articlepkg.journal_pissn
    eissn := n.checkpoint.attempt.articlepkg.journal_eissn }

/-- The `data_checkins` dict built by `Notifier._send_checkin_notification`
from the resource id returned by the first post. -/
def mkDataCheckins (n : Notifier) (rid : Nat) : CheckinData :=
  { attempt_ref := toString n.checkpoint.attempt.id
    package_name := n.checkpoint.attempt.xml_filename
    uploaded_at := n.checkpoint.attempt.started_at
    article := "/api/v1/checkins_articles/" ++ toString rid ++ "/"
    submitted_by := n.checkpoint.attempt.email_submitted }

/-- `lib/notifier.py`, `Notifier._send_checkin_notification`: emits its
invocation marker, returns early when manager integration is disabled,
asserts the point is `checkin`, then runs the two-phase post: the
`checkins_articles` record first and, only if it succeeds, the dependent
`checkins` record; on success of both, binds the returned resource uri to
`attempt.checkin_uri`; a remote-API error in either phase is logged and
swallowed, leaving the notifier unchanged. -/
def sendCheckinNotification (api : ScieloApi) (n : Notifier) :
    Except PyErr Unit × Notifier × List NEv :=
  let entry := [NEv.checkinNotifCall]
  if !n.manager_integration then
    (.ok (), n, entry ++ [NEv.logWarn "Notifications to Manager are disabled. Skipping."])
  else if n.checkpoint.point ≠ Point.checkin then
    (.error .assertionError, n, entry)
  else
    let da := mkDataArticle n
    match api.checkins_articles_post da with
    | .error e =>
        (.ok (), n, entry ++ [NEv.checkinsArticlesPost da,
          NEv.logErr ("Error posting data to Manager. Message: " ++ e)])
    | .ok rid =>
        let dc := mkDataCheckins n rid
        match api.checkins_post dc with
        | .error e =>
            (.ok (), n, entry ++ [NEv.checkinsArticlesPost da, NEv.checkinsPost dc,
              NEv.logErr ("Error posting data to Manager. Message: " ++ e)])
        | .ok rid2 =>
            let uri := "/api/v1/checkins/" ++ toString rid2 ++ "/"
            let att := { n.checkpoint.attempt with checkin_uri := some uri }
            let n' := { n with checkpoint := { n.checkpoint with attempt := att } }
            (.ok (), n', entry ++ [NEv.checkinsArticlesPost da, NEv.checkinsPost dc])

/-- `lib/notifier.py`, `Notifier.tell`: appends the notice on the local
checkpoint, then mirrors it to the registry's notice stream. -/
def Notifier.tell (api : ScieloApi) (n : Notifier) (message : String)
    (status : Status) (label : Option String) : Notifier × List NEv :=
  let n' := { n with checkpoint := n.checkpoint.tell message status label }
  (n', sendNoticeNotification api n' message status label)

/-- `lib/notifier.py`, `Notifier.start`: timestamps the checkpoint, sends
the checkin notification exactly when the point is `checkin`, then emits
the `SERV_BEGIN` lifecycle notice. -/
def Notifier.start (api : ScieloApi) (n : Notifier) :
    Except PyErr Unit × Notifier × List NEv :=
  let n1 := { n with checkpoint := n.checkpoint.start }
  if n1.checkpoint.point = Point.checkin then
    match sendCheckinNotification api n1 with
    | (.error e, n2, t) => (.error e, n2, t)
    | (.ok _, n2, t) =>
        (.ok (), n2, t ++ sendNoticeNotification api n2 "" Status.SERV_BEGIN none)
  else
    (.ok (), n1, sendNoticeNotification api n1 "" Status.SERV_BEGIN none)

/-- `lib/notifier.py`, `Notifier.end`: timestamps the checkpoint, sends the
checkout notification exactly when the point is `checkout`, then emits the
`SERV_END` lifecycle notice. -/
def Notifier.end' (api : ScieloApi) (n : Notifier) :
    Except PyErr Unit × Notifier × List NEv :=
  let n1 := { n with checkpoint := n.checkpoint.end' }
  if n1.checkpoint.point = Point.checkout then
    match sendCheckoutNotification api n1 with
    | (.error e, t) => (.error e, n1, t)
    | (.ok _, t) =>
        (.ok (), n1, t ++ sendNoticeNotification api n1 "" Status.SERV_END none)
  else
    (.ok (), n1, sendNoticeNotification api n1 "" Status.SERV_END none)

/-- `lib/notifier.py`, `_checkin_notifier_factory` (inside
`create_checkpoint_notifier`): performs the lookup-or-create of the
Checkpoint for the bound `(attempt, point)` pair and wraps it in a
Notifier.  `queryResult` is the result set of the session query for
matching Checkpoints: one match is reused, `NoResultFound` (zero matches)
creates a fresh Checkpoint, and `MultipleResultsFound` (two or more
matches) is caught by a handler whose log statement is commented out and
whose body is `pass`, so the local `checkpoint` stays unbound and the
subsequent `Notifier(checkpoint, ...)` raises `UnboundLocalError`; no log
record is emitted on any path. -/
def create_checkpoint_notifier (point : Point) (manager_integration : Bool)
    (queryResult : List Checkpoint) (attempt : NAttempt)
    (session_dirty : Bool) : Except PyErr Notifier × List NEv :=
  match queryResult with
  | [c] =>
      (.ok { checkpoint := c, db_session_dirty := session_dirty
             manager_integration := manager_integration }, [])
  | [] =>
      (.ok { checkpoint := Checkpoint.new point attempt
             db_session_dirty := session_dirty
             manager_integration := manager_integration }, [])
  | _ :: _ :: _ =>
      (.error .unboundLocal, [])

/-- `lib/notifier.py`, `auto_commit_or_rollback`: wraps a method; after a
successful method call it commits when the session is dirty; an
`IntegrityError` (from the method or from the commit itself) aborts the
transaction and is re-raised; any other exception propagates untouched.
`methodResult` abstracts the wrapped method's outcome, `dirty` the
session's dirty flag at return, `commitResult` the outcome of
`transaction.commit()`; the event list records the transaction calls made. -/
def auto_commit_or_rollback {A : Type} (methodResult : Except PyErr A)
    (dirty : Bool) (commitResult : Except PyErr Unit) :
    Except PyErr A × List NEv :=
  match methodResult with
  | .error e =>
      if e = PyErr.integrityError then (.error e, [NEv.txAbort])
      else (.error e, [])
  | .ok v =>
      if dirty then
        match commitResult with
        | .ok _ => (.ok v, [NEv.txCommit])
        | .error e =>
            if e = PyErr.integrityError then (.error e, [NEv.txCommit, NEv.txAbort])
            else (.error e, [NEv.txCommit])
      else (.ok v, [])

/-- Python truthiness of an optional string attribute: `None` and the empty
string are falsy. -/
def truthyS : Option String → Bool
  | none => false
  | some s => !s.isEmpty

/-- A Python local variable: unbound until first assignment; reading an
unbound local raises `UnboundLocalError`. -/
inductive PyLocal (A : Type) where
  | unbound
  | bound (v : A)
deriving DecidableEq

/-- The criteria dict passed to `journals.filter` by
`SetupPipe._fetch_journal_data`. -/
inductive IssnCriteria where
  | print_issn (s : String)
  | eletronic_issn (s : String)
deriving DecidableEq

/-- The validator-side view of an Attempt: the fields read and written by
`SetupPipe.transform` (modelled from the spec for `models.Attempt`). -/
structure VAttempt where
  articlepkg : ArticlePkg
  filepath : String
  is_valid : Bool
deriving DecidableEq

/-- Dependencies injected into `SetupPipe`: the ISSN format validator and
the two-phase journal lookup.  `fetch_journal` stands for
`_fetch_journal_data` with the `ValueError` raised by `get_one` on an
unknown ISSN already mapped to `none` (the `try/except ValueError` in
`transform` binds `journal_data = None` in that case). -/
structure SetupEnv where
  issn_validator : String → Bool
  fetch_journal : IssnCriteria → Option String

/-- `validator.py`, `SetupPipe.transform`: resolves journal identity by
print ISSN first and electronic ISSN second, with Python local-variable
semantics made explicit.  `journal_data` is only assigned inside the
`if journal_pissn and issn_validator(journal_pissn)` branch; when that
branch is not taken the local stays unbound, and the later reads — `not
journal_data` in the eissn condition (reached only when the eissn is
truthy and format-valid) and the final `if not journal_data` — raise
`UnboundLocalError`.  On a bound lookup miss the attempt is marked
invalid; the package-analyzer value in the returned triple is elided
(external collaborator). -/
def SetupPipe.transform (env : SetupEnv) (attempt : VAttempt) :
    Except PyErr (VAttempt × Option String) :=
  let pissn := attempt.articlepkg.journal_pissn
  let jd : PyLocal (Option String) :=
    if truthyS pissn && env.issn_validator (pissn.getD "") then
      .bound (env.fetch_journal (.print_issn (pissn.getD "")))
    else .unbound
  let eissn := attempt.articlepkg.journal_eissn
  let step2 : Except PyErr (PyLocal (Option String)) :=
    if truthyS eissn && env.issn_validator (eissn.getD "") then
      match jd with
      | .unbound => .error .unboundLocal
      | .bound v =>
          if v.isNone then
            .ok (.bound (env.fetch_journal (.eletronic_issn (eissn.getD ""))))
          else .ok (.bound v)
    else .ok jd
  match step2 with
  | .error e => .error e
  | .ok .unbound => .error .unboundLocal
  | .ok (.bound v) =>
      if v.isNone then .ok ({ attempt with is_valid := false }, v)
      else .ok (attempt, v)

/-- `checkout.py`, module constant `FILES_EXTENSION`. -/
def FILES_EXTENSION : List String := ["xml", "pdf"]

/-- `checkout.py`, module constant `IMAGES_EXTENSION`. -/
def IMAGES_EXTENSION : List String := ["tif", "eps"]

/-- `checkout.py`, module constant `NAME_ZIP_FILE`. -/
def NAME_ZIP_FILE : String := "images.zip"

/-- `checkout.py`, module constant `STATIC_PATH`. -/
def STATIC_PATH : String := "articles"

/-- Modelled from the spec: `utils.get_static_path` derives the upload path
from the base path, the article identifier segment and the file name. -/
def get_static_path (base seg name : String) : String :=
  base ++ "/" ++ seg ++ "/" ++ name

/-- A file member of the package archive, as yielded by
`package_analyzer.get_fps(ext)`: its name and readable content. -/
structure CStaticFile where
  name : String
  content : String
deriving DecidableEq

/-- The front-matter metadata dict `package_analyzer.meta` (fields read by
`upload_meta_front`). -/
structure Meta where
  journal_pissn : String
  journal_eissn : String
  issue_volume : String
  issue_number : String
  issue_suppl_number : String
  issue_suppl_volume : String
  issue_year : String
deriving DecidableEq

/-- The package-analyzer collaborator as consumed by `checkout.py`:
file members by extension, member names by extension, sub-archive
extraction, the parsed XML (opaque) and the extracted metadata. -/
structure CAnalyzer where
  filename : String
  get_fps : String → List CStaticFile
  get_ext : String → List String
  subzip : List String → String
  xml : String
  meta : Meta

/-- An issue resource returned by `client.issues.filter`. -/
structure Issue where
  resource_uri : String
deriving DecidableEq

/-- The composite filter dict built by `upload_meta_front` and passed to
`client.issues.filter`. -/
structure IssueFilter where
  pissn : String
  eissn : String
  volume : String
  number : String
  suppl_number : String
  suppl_volume : String
  publication_year : String
deriving DecidableEq

/-- The payload dict posted to `client.articles.post`. -/
structure ArticlePost where
  issue : String
  front : String
  xml_url : String
  pdf_url : String
  images_url : String
deriving DecidableEq

/-- Observable events of the checkout procedure: static-storage sends,
issue-registry lookups, article posts and log records. -/
inductive CEv where
  | staticSend (path : String)
  | issuesFilter (f : IssueFilter)
  | articlesPost (p : ArticlePost)
  | logInfo (m : String)
  | logCritical (m : String)
deriving DecidableEq

/-- Whether an event is a static-storage upload call. -/
def CEv.isStaticSend : CEv → Bool
  | .staticSend _ => true
  | _ => false

/-- The environment of the checkout procedure: the static-storage backend
(`conn.send` may raise), the registry client (`issues.filter` result set
and `articles.post`, which may raise) and the front-matter extraction
pipeline (`next(get_meta_ppl().run(xml, rewrap=True))`, which may raise). -/
structure CheckoutEnv where
  send : String → String → Except PyErr String
  issues_filter : IssueFilter → List Issue
  articles_post : ArticlePost → Except PyErr Unit
  front_of : String → Except PyErr String

/-- The `uri_dict` of `upload_static_files`: a Python dict from extension
key to the last uploaded locator, as an association list with
insert-or-replace update. -/
def dictSet (d : List (String × String)) (k v : String) : List (String × String) :=
  match d with
  | [] => [(k, v)]
  | (k', v') :: rest =>
      if k' = k then (k, v) :: rest else (k', v') :: dictSet rest k v

/-- Python dict key lookup; a missing key raises `KeyError` at the caller. -/
def dictGet (d : List (String × String)) (k : String) : Option String :=
  match d with
  | [] => none
  | (k', v) :: rest => if k' = k then some v else dictGet rest k

/-- Inner loop of `upload_static_files`: `for static_file in
package_analyzer.get_fps(ext)`, sending each member under its derived path
and recording the returned locator under the extension key (the dict write
happens only when the send returned). -/
def sendFilesForExt (env : CheckoutEnv) (ext : String)
    (files : List CStaticFile) (d : List (String × String)) :
    Except PyErr (List (String × String)) × List CEv :=
  match files with
  | [] => (.ok d, [])
  | f :: rest =>
      let path := get_static_path STATIC_PATH "tmp" f.name
      match env.send f.content path with
      | .error e => (.error e, [CEv.staticSend path])
      | .ok uri =>
          let (r, t) := sendFilesForExt env ext rest (dictSet d ext uri)
          (r, CEv.staticSend path :: t)

/-- Outer loop of `upload_static_files`: `for ext in FILES_EXTENSION`. -/
def sendAllExts (env : CheckoutEnv) (pa : CAnalyzer) (exts : List String)
    (d : List (String × String)) :
    Except PyErr (List (String × String)) × List CEv :=
  match exts with
  | [] => (.ok d, [])
  | e :: rest =>
      match sendFilesForExt env e (pa.get_fps e) d with
      | (.error err, t) => (.error err, t)
      | (.ok d', t) =>
          let (r, t') := sendAllExts env pa rest d'
          (r, t ++ t')

/-- `checkout.py`, `upload_static_files`: sends every XML and PDF member
individually, then bundles the TIF and EPS member names into a single
secondary archive sent as `images.zip`, recording each returned locator in
`uri_dict` (keys `xml`, `pdf`, `img`). -/
def upload_static_files (env : CheckoutEnv) (pa : CAnalyzer) :
    Except PyErr (List (String × String)) × List CEv :=
  match sendAllExts env pa FILES_EXTENSION [] with
  | (.error e, t) => (.error e, t)
  | (.ok d, t) =>
      let names := IMAGES_EXTENSION.foldl (fun acc ext => acc ++ pa.get_ext ext) []
      let sub := pa.subzip names
      let path := get_static_path STATIC_PATH "tmp" NAME_ZIP_FILE
      match env.send sub path with
      | .error e => (.error e, t ++ [CEv.staticSend path])
      | .ok uri => (.ok (dictSet d "img" uri), t ++ [CEv.staticSend path])

/-- The composite filter built by `upload_meta_front` from the extracted
metadata. -/
def mkIssueFilter (m : Meta) : IssueFilter :=
  { pissn := m.journal_pissn
    eissn := m.journal_eissn
    volume := m.issue_volume
    number := m.issue_number
    suppl_number := m.issue_suppl_number
    suppl_volume := m.issue_suppl_volume
    publication_year := m.issue_year }

/-- `checkout.py`, `upload_meta_front`: resolves the owning issue with
`next(client.issues.filter(**dict_filter))` — the first element of the
result set, raising `StopIteration` when it is empty — then builds the
article payload (extracting the front, then reading the `xml`, `pdf` and
`img` locators out of `uri_dict`, where a missing key raises `KeyError`)
and posts it to `client.articles.post`. -/
def upload_meta_front (env : CheckoutEnv) (pa : CAnalyzer)
    (uri_dict : List (String × String)) : Except PyErr Unit × List CEv :=
  let f := mkIssueFilter pa.meta
  let t0 := [CEv.issuesFilter f]
  match (env.issues_filter f).head? with
  | none => (.error .stopIteration, t0)
  | some issue =>
      match env.front_of pa.xml with
      | .error e => (.error e, t0)
      | .ok front =>
          match dictGet uri_dict "xml", dictGet uri_dict "pdf", dictGet uri_dict "img" with
          | some xu, some pu, some iu =>
              let data : ArticlePost :=
                { issue := issue.resource_uri, front := front
                  xml_url := xu, pdf_url := pu, images_url := iu }
              (env.articles_post data, t0 ++ [CEv.articlesPost data])
          | _, _, _ => (.error .keyError, t0)

/-- The checkout-side view of an Attempt: its analyzer, queue flags and
printable representation (modelled from the spec for `models.Attempt`). -/
structure CAttempt where
  reprS : String
  analyzer : CAnalyzer
  proceed_to_checkout : Bool
  queued_checkout : Bool
  checkout_started_at : Option Nat

/-- The log line emitted by the per-item exception handler of
`checkout_procedure_by_attempt`. -/
def criticalMsg (filename : String) (e : PyErr) : String :=
  "some exception occurred while processing the package " ++ filename ++
    ", traceback: " ++ e.message

/-- `checkout.py`, `checkout_procedure_by_attempt`: timestamps the checkout
start, uploads the static files, posts the front metadata and clears
`queued_checkout` — the whole body inside `try/except Exception`, so any
failure is logged (with the package file name) via `logger.critical` and
the procedure returns normally, leaving the flags already set untouched. -/
def checkout_procedure_by_attempt (env : CheckoutEnv) (a : CAttempt)
    (now : Nat) : CAttempt × List CEv :=
  let t0 := [CEv.logInfo ("Starting checkout to attempt: " ++ a.reprS)]
  let a1 := { a with checkout_started_at := some now }
  let t1 := t0 ++ [CEv.logInfo ("Set checkout_started_at to: " ++ toString now)]
  match upload_static_files env a1.analyzer with
  | (.error e, ts) =>
      (a1, t1 ++ ts ++ [CEv.logCritical (criticalMsg a1.analyzer.filename e)])
  | (.ok uri_dict, ts) =>
      let t2 := t1 ++ ts ++ [CEv.logInfo ("Upload static files for attempt: " ++ a1.reprS)]
      match upload_meta_front env a1.analyzer uri_dict with
      | (.error e, tm) =>
          (a1, t2 ++ tm ++ [CEv.logCritical (criticalMsg a1.analyzer.filename e)])
      | (.ok _, tm) =>
          let t3 := t2 ++ tm ++
            [CEv.logInfo ("Set queued_checkout to False attempt: " ++ a1.reprS)]
          ({ a1 with queued_checkout := false }, t3)

/-- `checkout.py`, `main`, `--attempts` branch, one polling cycle over the
eligible attempts: each attempt is claimed (`queued_checkout = True`) and
dispatched to `checkout_procedure_by_attempt`; the procedure is total, so
every sibling in the batch is processed regardless of per-item failures. -/
def process_attempts (env : CheckoutEnv) (attempts : List CAttempt)
    (now : Nat) : List (CAttempt × List CEv) :=
  attempts.map (fun a =>
    checkout_procedure_by_attempt env { a with queued_checkout := true } now)

/-- Whether an event is the invocation marker of
`_send_checkin_notification`. -/
def NEv.isCheckinCall : NEv → Bool
  | .checkinNotifCall => true
  | _ => false

/-- Whether an event is the invocation marker of
`_send_checkout_notification`. -/
def NEv.isCheckoutCall : NEv → Bool
  | .checkoutNotifCall => true
  | _ => false

/-- The article payload built by `upload_meta_front` once the issue, the
front and the three locators are at hand. -/
def mkArticleData (issue : Issue) (front xu pu iu : String) : ArticlePost :=
  { issue := issue.resource_uri, front := front
    xml_url := xu, pdf_url := pu, images_url := iu }

/-- Fixture: an article package with both ISSNs set. -/
def pkgFix : ArticlePkg :=
  { id := 1, article_title := "On tests", journal_title := "J. Tests"
    issue_label := "v1n1", journal_pissn := some "0001-0001"
    journal_eissn := some "0001-000X" }

/-- Fixture: an article package with neither ISSN set. -/
def pkgNoIssn : ArticlePkg :=
  { id := 2, article_title := "On tests", journal_title := "J. Tests"
    issue_label := "v1n1", journal_pissn := none, journal_eissn := none }

/-- Fixture: an attempt not yet checked in. -/
def attFix : NAttempt :=
  { id := 7, articlepkg := pkgFix, xml_filename := "pkg.xml"
    started_at := "2013-09-01 10:00:00", email_submitted := "op@scielo.org"
    checkin_uri := none }

/-- Fixture: a validator-side attempt whose package has no ISSN at all. -/
def vAttNoIssn : VAttempt :=
  { articlepkg := pkgNoIssn, filepath := "/tmp/pkg.zip", is_valid := true }

/-- Fixture: a setup environment that accepts every ISSN format and
resolves no journal. -/
def setupEnvFix : SetupEnv :=
  { issn_validator := fun _ => true, fetch_journal := fun _ => none }

/-- Fixture: a registry oracle on which every call succeeds. -/
def apiOk : ScieloApi :=
  { notices_post := fun _ => .ok ()
    checkins_articles_post := fun _ => .ok 1
    checkins_post := fun _ => .ok 2 }

/-- Fixture: a registry oracle whose `checkins_articles.post` raises a
remote-API error. -/
def apiFailArticle : ScieloApi :=
  { notices_post := fun _ => .ok ()
    checkins_articles_post := fun _ => .error "503 service unavailable"
    checkins_post := fun _ => .ok 2 }

/-- Fixture: a Notifier on a checkin Checkpoint, integration enabled. -/
def nCheckin : Notifier :=
  { checkpoint := Checkpoint.new Point.checkin attFix
    db_session_dirty := false, manager_integration := true }

/-- Fixture: a Notifier on a checkout Checkpoint, integration enabled. -/
def nCheckout : Notifier :=
  { checkpoint := Checkpoint.new Point.checkout attFix
    db_session_dirty := false, manager_integration := true }

/-- Fixture: a Notifier on a validation Checkpoint with manager
integration disabled. -/
def nDisabled : Notifier :=
  { checkpoint := Checkpoint.new Point.validation attFix
    db_session_dirty := false, manager_integration := false }

/-- Fixture: a Notifier whose persistence session is dirty. -/
def nDirty : Notifier :=
  { checkpoint := Checkpoint.new Point.validation attFix
    db_session_dirty := true, manager_integration := true }

/-- Fixture: extracted front-matter metadata. -/
def metaFix : Meta :=
  { journal_pissn := "0001-0001", journal_eissn := "0001-000X"
    issue_volume := "10", issue_number := "2", issue_suppl_number := ""
    issue_suppl_volume := "", issue_year := "2013" }

/-- Fixture: a package analyzer with one XML member, one PDF member and no
image members. -/
def anFix : CAnalyzer :=
  { filename := "pkg.zip"
    get_fps := fun ext =>
      if ext = "xml" then [{ name := "a.xml", content := "<article/>" }]
      else if ext = "pdf" then [{ name := "a.pdf", content := "pdfbytes" }]
      else []
    get_ext := fun _ => []
    subzip := fun _ => "zipbytes"
    xml := "<article/>"
    meta := metaFix }

/-- Fixture: a checkout-side attempt flagged for checkout. -/
def cAttFix : CAttempt :=
  { reprS := "<Attempt 7>", analyzer := anFix, proceed_to_checkout := true
    queued_checkout := true, checkout_started_at := none }

/-- Fixture: a checkout environment where every operation succeeds and the
issue filter resolves to exactly one issue. -/
def envOkOne : CheckoutEnv :=
  { send := fun _ path => .ok ("http://static.scielo.org/" ++ path)
    issues_filter := fun _ => [{ resource_uri := "/api/v1/issues/1/" }]
    articles_post := fun _ => .ok ()
    front_of := fun _ => .ok "FRONT" }

/-- Fixture: a checkout environment where every operation succeeds but the
issue filter matches two distinct issues. -/
def envOkTwo : CheckoutEnv :=
  { send := fun _ path => .ok ("http://static.scielo.org/" ++ path)
    issues_filter := fun _ =>
      [{ resource_uri := "/api/v1/issues/1/" }, { resource_uri := "/api/v1/issues/2/" }]
    articles_post := fun _ => .ok ()
    front_of := fun _ => .ok "FRONT" }

/-- Fixture: a checkout environment whose static-storage backend raises on
every send. -/
def envSendFail : CheckoutEnv :=
  { send := fun _ _ => .error (.other "connection reset by peer")
    issues_filter := fun _ => [{ resource_uri := "/api/v1/issues/1/" }]
    articles_post := fun _ => .ok ()
    front_of := fun _ => .ok "FRONT" }

lemma countP_checkinCall_sendNotice (api : ScieloApi) (n : Notifier)
    (m : String) (s : Status) (l : Option String) :
    (sendNoticeNotification api n m s l).countP NEv.isCheckinCall = 0 := by
  unfold sendNoticeNotification
  by_cases h : n.manager_integration <;>
    simp [h, List.countP_cons, List.countP_append, NEv.isCheckinCall] <;>
    cases api.notices_post (mkNoticeData n m s l) <;>
    simp [List.countP_cons, NEv.isCheckinCall]

lemma countP_checkinCall_sendCheckin (api : ScieloApi) (n : Notifier) :
    ((sendCheckinNotification api n).2.2).countP NEv.isCheckinCall = 1 := by
  unfold sendCheckinNotification
  by_cases h : n.manager_integration <;>
    by_cases hp : n.checkpoint.point = Point.checkin <;>
    simp [h, hp, List.countP_cons, List.countP_append, NEv.isCheckinCall] <;>
    cases hd : api.checkins_articles_post (mkDataArticle n) <;>
    simp [hd, List.countP_cons, NEv.isCheckinCall] <;>
    cases hc : api.checkins_post (mkDataCheckins n _) <;>
    simp [hc, List.countP_cons, NEv.isCheckinCall]

lemma countP_checkinCall_start_pos (api : ScieloApi) (n : Notifier)
    (hp : n.checkpoint.point = Point.checkin) :
    ((Notifier.start api n).2.2).countP NEv.isCheckinCall = 1 := by
  simp only [Notifier.start]
  set N := ({ n with checkpoint := n.checkpoint.start } : Notifier) with hN
  rw [if_pos (show n.checkpoint.start.point = Point.checkin by
    simpa [Checkpoint.start] using hp)]
  rcases h : sendCheckinNotification api N with ⟨res, n2, t⟩
  have h2 := countP_checkinCall_sendCheckin api N
  rw [h] at h2
  cases res <;>
    simp_all [List.countP_append, countP_checkinCall_sendNotice]

lemma countP_checkinCall_start_neg (api : ScieloApi) (n : Notifier)
    (hp : ¬(n.checkpoint.point = Point.checkin)) :
    ((Notifier.start api n).2.2).countP NEv.isCheckinCall = 0 := by
  simp only [Notifier.start]
  rw [if_neg (by simpa [Checkpoint.start] using hp)]
  simp [countP_checkinCall_sendNotice]

/-- Claim C7: `start()` on a Notifier whose Checkpoint's Point is `checkin`
triggers exactly one checkin notification attempt (one invocation of
`_send_checkin_notification`), and `start()` on a Notifier bound to any
other Point triggers zero — for every registry oracle and every notifier. -/
theorem C7_start_checkin_notification_count (api : ScieloApi) (n : Notifier) :
    ((Notifier.start api n).2.2).countP NEv.isCheckinCall =
      if n.checkpoint.point = Point.checkin then 1 else 0 := by
  by_cases hp : n.checkpoint.point = Point.checkin
  · rw [if_pos hp]
    exact countP_checkinCall_start_pos api n hp
  · rw [if_neg hp]
    exact countP_checkinCall_start_neg api n hp

/-- Claim C10: for every call to `Notifier.tell`, the notice is appended to
the local Checkpoint before and independently of remote delivery: the
resulting checkpoint carries exactly the appended notice for every registry
oracle (hence also when `notices.post` raises a remote-API error) and for
every value of the `manager_integration` toggle, and the remote send runs
on the already-appended state. -/
theorem C10_tell_appends_notice_locally (api : ScieloApi) (n : Notifier)
    (m : String) (s : Status) (l : Option String) :
    ((Notifier.tell api n m s l).1).checkpoint.notices
        = n.checkpoint.notices ++ [⟨m, s, l⟩] ∧
      (Notifier.tell api n m s l).2
        = sendNoticeNotification api ((Notifier.tell api n m s l).1) m s l :=
  ⟨rfl, rfl⟩

/-- Claim C2: for every Checkpoint lookup that returns more than one match,
`_checkin_notifier_factory` emits no log record at all (the `logger.error`
in the `MultipleResultsFound` handler is commented out and the handler body
is `pass`), and then raises `UnboundLocalError` when it builds the Notifier
from the unbound `checkpoint` local — the inconsistency is neither surfaced
nor survived. -/
theorem C2_duplicate_checkpoint_match_unlogged (point : Point)
    (integration : Bool) (c1 c2 : Checkpoint) (rest : List Checkpoint)
    (attempt : NAttempt) (dirty : Bool) :
    create_checkpoint_notifier point integration (c1 :: c2 :: rest) attempt dirty
      = (.error PyErr.unboundLocal, []) := rfl

/-- Claim C1: on every Attempt whose print ISSN is unset or format-invalid,
`SetupPipe.transform` raises `UnboundLocalError` instead of returning —
`journal_data` is assigned only inside the print-ISSN branch, and the later
reads (`not journal_data` in the electronic-ISSN condition, or the final
`if not journal_data`) hit the unbound local.  In particular no Attempt
with unset/invalid print ISSN and unset/invalid/unresolved electronic ISSN
ever reaches the `is_valid = False` path. -/
theorem C1_setup_pipe_raises_unbound_local (env : SetupEnv) (a : VAttempt)
    (h : (truthyS a.articlepkg.journal_pissn
          && env.issn_validator (a.articlepkg.journal_pissn.getD "")) = false) :
    SetupPipe.transform env a = .error PyErr.unboundLocal := by
  simp only [SetupPipe.transform]
  rw [h]
  by_cases he : (truthyS a.articlepkg.journal_eissn
      && env.issn_validator (a.articlepkg.journal_eissn.getD "")) = true <;>
    simp [he]

lemma countP_txOp_sendNotice (api : ScieloApi) (n : Notifier)
    (m : String) (s : Status) (l : Option String) :
    (sendNoticeNotification api n m s l).countP NEv.isTxOp = 0 := by
  unfold sendNoticeNotification
  by_cases h : n.manager_integration <;>
    simp [h, List.countP_cons, List.countP_append, NEv.isTxOp] <;>
    cases api.notices_post (mkNoticeData n m s l) <;>
    simp [List.countP_cons, NEv.isTxOp]

lemma countP_txOp_sendCheckin (api : ScieloApi) (n : Notifier) :
    ((sendCheckinNotification api n).2.2).countP NEv.isTxOp = 0 := by
  unfold sendCheckinNotification
  by_cases h : n.manager_integration <;>
    by_cases hp : n.checkpoint.point = Point.checkin <;>
    simp [h, hp, List.countP_cons, List.countP_append, NEv.isTxOp] <;>
    cases hd : api.checkins_articles_post (mkDataArticle n) <;>
    simp [hd, List.countP_cons, NEv.isTxOp] <;>
    cases hc : api.checkins_post (mkDataCheckins n _) <;>
    simp [hc, List.countP_cons, NEv.isTxOp]

lemma countP_txOp_sendCheckout (api : ScieloApi) (n : Notifier) :
    ((sendCheckoutNotification api n).2).countP NEv.isTxOp = 0 := by
  unfold sendCheckoutNotification
  by_cases h : n.manager_integration <;>
    by_cases hp : n.checkpoint.point = Point.checkout <;>
    simp [h, hp, List.countP_cons, List.countP_append, NEv.isTxOp] <;>
    cases hd : api.notices_post (mkCheckoutData n) <;>
    simp [hd, List.countP_cons, NEv.isTxOp]

lemma countP_txOp_tell (api : ScieloApi) (n : Notifier) (m : String)
    (s : Status) (l : Option String) :
    ((Notifier.tell api n m s l).2).countP NEv.isTxOp = 0 := by
  simp only [Notifier.tell]
  exact countP_txOp_sendNotice api _ m s l

lemma countP_txOp_start (api : ScieloApi) (n : Notifier) :
    ((Notifier.start api n).2.2).countP NEv.isTxOp = 0 := by
  simp only [Notifier.start]
  set N := ({ n with checkpoint := n.checkpoint.start } : Notifier) with hN
  by_cases hc : n.checkpoint.start.point = Point.checkin
  · rw [if_pos hc]
    rcases h : sendCheckinNotification api N with ⟨res, n2, t⟩
    have h2 := countP_txOp_sendCheckin api N
    rw [h] at h2
    cases res <;>
      simp_all [List.countP_append, countP_txOp_sendNotice]
  · rw [if_neg hc]
    simp [countP_txOp_sendNotice]

lemma countP_txOp_end (api : ScieloApi) (n : Notifier) :
    ((Notifier.end' api n).2.2).countP NEv.isTxOp = 0 := by
  simp only [Notifier.end']
  set N := ({ n with checkpoint := n.checkpoint.end' } : Notifier) with hN
  by_cases hc : n.checkpoint.end'.point = Point.checkout
  · rw [if_pos hc]
    rcases h : sendCheckoutNotification api N with ⟨res, t⟩
    have h2 := countP_txOp_sendCheckout api N
    rw [h] at h2
    cases res <;>
      simp_all [List.countP_append, countP_txOp_sendNotice]
  · rw [if_neg hc]
    simp [countP_txOp_sendNotice]

/-- Claim C5, counterexample: a `tell` on a Notifier whose session is dirty
returns successfully yet performs no transaction operation at all — the
`auto_commit_or_rollback` wrapper is never applied to `tell`, `start` or
`end`, so no commit happens on successful return. -/
theorem C5_counterexample_tell_never_commits :
    nDirty.db_session_dirty = true ∧
      ((Notifier.tell apiOk nDirty "all good" Status.ok none).2).countP
        NEv.isTxOp = 0 := by
  constructor
  · rfl
  · exact countP_txOp_tell apiOk nDirty "all good" Status.ok none

/-- Claim C5, amended: the `auto_commit_or_rollback` wrapper does commit
the transaction when the session is dirty on successful return, does
nothing when the session is clean, and on an integrity violation — at
commit time or from the wrapped method — aborts the transaction and
re-raises; but the wrapper is not applied to `Notifier.tell`, `start` or
`end`, which therefore perform no transaction operation themselves. -/
theorem C5_commit_discipline_amended {A : Type} (v : A)
    (cr : Except PyErr Unit) (d : Bool) (api : ScieloApi) (n : Notifier)
    (m : String) (s : Status) (l : Option String) :
    auto_commit_or_rollback (Except.ok v) true (Except.ok ())
        = (Except.ok v, [NEv.txCommit]) ∧
      auto_commit_or_rollback (Except.ok v) false cr = (Except.ok v, []) ∧
      auto_commit_or_rollback (Except.ok v) true (Except.error PyErr.integrityError)
        = (Except.error PyErr.integrityError, [NEv.txCommit, NEv.txAbort]) ∧
      auto_commit_or_rollback (A := A) (Except.error PyErr.integrityError) d cr
        = (Except.error PyErr.integrityError, [NEv.txAbort]) ∧
      ((Notifier.tell api n m s l).2).countP NEv.isTxOp = 0 ∧
      ((Notifier.start api n).2.2).countP NEv.isTxOp = 0 ∧
      ((Notifier.end' api n).2.2).countP NEv.isTxOp = 0 := by
  refine ⟨rfl, rfl, by simp [auto_commit_or_rollback], by simp [auto_commit_or_rollback],
    countP_txOp_tell api n m s l, countP_txOp_start api n, countP_txOp_end api n⟩

lemma sendNotice_disabled (api : ScieloApi) (n : Notifier) (m : String)
    (s : Status) (l : Option String) (hm : n.manager_integration = false) :
    sendNoticeNotification api n m s l
      = [NEv.logDebug "Notification about to be sent to Manager",
         NEv.logWarn "Notifications to Manager are disabled. Skipping."] := by
  simp [sendNoticeNotification, hm]

lemma sendCheckin_disabled (api : ScieloApi) (n : Notifier)
    (hm : n.manager_integration = false) :
    sendCheckinNotification api n
      = (.ok (), n, [NEv.checkinNotifCall,
          NEv.logWarn "Notifications to Manager are disabled. Skipping."]) := by
  simp [sendCheckinNotification, hm]

lemma sendCheckout_disabled (api : ScieloApi) (n : Notifier)
    (hm : n.manager_integration = false) :
    sendCheckoutNotification api n
      = (.ok (), [NEv.checkoutNotifCall,
          NEv.logWarn "Notifications to Manager are disabled. Skipping."]) := by
  simp [sendCheckoutNotification, hm]

/-- Claim C9: when the `manager_integration` toggle is disabled, every
notification method of the Notifier — the notice, checkin and checkout
notifications, and therefore also `tell`, `start` and `end` — returns
successfully and makes no call to the external registry client. -/
theorem C9_disabled_integration_no_registry_calls (api : ScieloApi)
    (n : Notifier) (m : String) (s : Status) (l : Option String)
    (hm : n.manager_integration = false) :
    sendNoticeNotification api n m s l
        = [NEv.logDebug "Notification about to be sent to Manager",
           NEv.logWarn "Notifications to Manager are disabled. Skipping."] ∧
      sendCheckinNotification api n
        = (.ok (), n, [NEv.checkinNotifCall,
            NEv.logWarn "Notifications to Manager are disabled. Skipping."]) ∧
      sendCheckoutNotification api n
        = (.ok (), [NEv.checkoutNotifCall,
            NEv.logWarn "Notifications to Manager are disabled. Skipping."]) ∧
      ((Notifier.tell api n m s l).2).countP NEv.isApiCall = 0 ∧
      (Notifier.start api n).1 = .ok () ∧
      ((Notifier.start api n).2.2).countP NEv.isApiCall = 0 ∧
      (Notifier.end' api n).1 = .ok () ∧
      ((Notifier.end' api n).2.2).countP NEv.isApiCall = 0 := by
  have hm1 : ∀ cp : Checkpoint,
      ({ n with checkpoint := cp } : Notifier).manager_integration = false := fun _ => hm
  refine ⟨sendNotice_disabled api n m s l hm, sendCheckin_disabled api n hm,
    sendCheckout_disabled api n hm, ?_, ?_, ?_, ?_, ?_⟩
  · simp only [Notifier.tell]
    rw [sendNotice_disabled api _ m s l (hm1 _)]
    simp [NEv.isApiCall]
  · simp only [Notifier.start]
    by_cases hc : n.checkpoint.start.point = Point.checkin
    · rw [if_pos hc, sendCheckin_disabled api _ (hm1 _)]
    · rw [if_neg hc]
  · simp only [Notifier.start]
    by_cases hc : n.checkpoint.start.point = Point.checkin
    · rw [if_pos hc, sendCheckin_disabled api _ (hm1 _)]
      simp [sendNotice_disabled api _ "" Status.SERV_BEGIN none (hm1 _), NEv.isApiCall]
    · rw [if_neg hc]
      simp [sendNotice_disabled api _ "" Status.SERV_BEGIN none (hm1 _), NEv.isApiCall]
  · simp only [Notifier.end']
    by_cases hc : n.checkpoint.end'.point = Point.checkout
    · rw [if_pos hc, sendCheckout_disabled api _ (hm1 _)]
    · rw [if_neg hc]
  · simp only [Notifier.end']
    by_cases hc : n.checkpoint.end'.point = Point.checkout
    · rw [if_pos hc, sendCheckout_disabled api _ (hm1 _)]
      simp [sendNotice_disabled api _ "" Status.SERV_END none (hm1 _), NEv.isApiCall]
    · rw [if_neg hc]
      simp [sendNotice_disabled api _ "" Status.SERV_END none (hm1 _), NEv.isApiCall]

/-- Claim C9, witness: the disabled-integration theorem applied to the
concrete Notifier `nDisabled` and the always-succeeding registry oracle. -/
theorem C9_witness :
    sendNoticeNotification apiOk nDisabled "foo" Status.ok (some "bar")
        = [NEv.logDebug "Notification about to be sent to Manager",
           NEv.logWarn "Notifications to Manager are disabled. Skipping."] ∧
      sendCheckinNotification apiOk nDisabled
        = (.ok (), nDisabled, [NEv.checkinNotifCall,
            NEv.logWarn "Notifications to Manager are disabled. Skipping."]) ∧
      sendCheckoutNotification apiOk nDisabled
        = (.ok (), [NEv.checkoutNotifCall,
            NEv.logWarn "Notifications to Manager are disabled. Skipping."]) ∧
      ((Notifier.tell apiOk nDisabled "foo" Status.ok (some "bar")).2).countP
        NEv.isApiCall = 0 ∧
      (Notifier.start apiOk nDisabled).1 = .ok () ∧
      ((Notifier.start apiOk nDisabled).2.2).countP NEv.isApiCall = 0 ∧
      (Notifier.end' apiOk nDisabled).1 = .ok () ∧
      ((Notifier.end' apiOk nDisabled).2.2).countP NEv.isApiCall = 0 :=
  C9_disabled_integration_no_registry_calls apiOk nDisabled "foo" Status.ok
    (some "bar") rfl

/-- Claim C6: the checkin notification is two-phase.  With manager
integration enabled and a `checkin` Checkpoint: (1) if the
`checkins_articles` post raises a remote-API error, the call still returns
normally, the dependent `checkins` post is never attempted, the error is
logged and the Notifier (hence the Attempt's `checkin_uri`) is unchanged;
(2) if the first post succeeds and the dependent `checkins` post raises,
the call still returns normally, the error is logged and the Notifier is
unchanged; (3) if both succeed, the article record is posted before the
dependent checkin record and `checkin_uri` is bound to the returned
resource uri. -/
theorem C6_checkin_notification_two_phase (api : ScieloApi) (n : Notifier)
    (hm : n.manager_integration = true)
    (hp : n.checkpoint.point = Point.checkin) :
    (∀ e, api.checkins_articles_post (mkDataArticle n) = .error e →
       sendCheckinNotification api n
         = (.ok (), n, [NEv.checkinNotifCall,
             NEv.checkinsArticlesPost (mkDataArticle n),
             NEv.logErr ("Error posting data to Manager. Message: " ++ e)])) ∧
      (∀ rid e, api.checkins_articles_post (mkDataArticle n) = .ok rid →
         api.checkins_post (mkDataCheckins n rid) = .error e →
         sendCheckinNotification api n
           = (.ok (), n, [NEv.checkinNotifCall,
               NEv.checkinsArticlesPost (mkDataArticle n),
               NEv.checkinsPost (mkDataCheckins n rid),
               NEv.logErr ("Error posting data to Manager. Message: " ++ e)])) ∧
      (∀ rid rid2, api.checkins_articles_post (mkDataArticle n) = .ok rid →
         api.checkins_post (mkDataCheckins n rid) = .ok rid2 →
         sendCheckinNotification api n
           = (.ok (), { n with checkpoint := { n.checkpoint with attempt :=
                 { n.checkpoint.attempt with
                   checkin_uri := some ("/api/v1/checkins/" ++ toString rid2 ++ "/") } } },
              [NEv.checkinNotifCall,
               NEv.checkinsArticlesPost (mkDataArticle n),
               NEv.checkinsPost (mkDataCheckins n rid)])) := by
  refine ⟨?_, ?_, ?_⟩
  · intro e h
    simp [sendCheckinNotification, hm, hp, h]
  · intro rid e h1 h2
    simp [sendCheckinNotification, hm, hp, h1, h2]
  · intro rid rid2 h1 h2
    simp [sendCheckinNotification, hm, hp, h1, h2]

/-- Claim C6, witness: on the concrete checkin Notifier and the oracle
whose `checkins_articles.post` raises, the notification returns normally,
skips phase two, logs the error and leaves `checkin_uri` unset. -/
theorem C6_witness :
    sendCheckinNotification apiFailArticle nCheckin
      = (.ok (), nCheckin, [NEv.checkinNotifCall,
          NEv.checkinsArticlesPost (mkDataArticle nCheckin),
          NEv.logErr ("Error posting data to Manager. Message: "
            ++ "503 service unavailable")]) :=
  (C6_checkin_notification_two_phase apiFailArticle nCheckin rfl rfl).1
    "503 service unavailable" rfl

lemma countP_checkoutCall_sendNotice (api : ScieloApi) (n : Notifier)
    (m : String) (s : Status) (l : Option String) :
    (sendNoticeNotification api n m s l).countP NEv.isCheckoutCall = 0 := by
  unfold sendNoticeNotification
  by_cases h : n.manager_integration <;>
    simp [h, List.countP_cons, List.countP_append, NEv.isCheckoutCall] <;>
    cases api.notices_post (mkNoticeData n m s l) <;>
    simp [List.countP_cons, NEv.isCheckoutCall]

lemma countP_checkoutCall_sendCheckout (api : ScieloApi) (n : Notifier) :
    ((sendCheckoutNotification api n).2).countP NEv.isCheckoutCall = 1 := by
  unfold sendCheckoutNotification
  by_cases h : n.manager_integration <;>
    by_cases hp : n.checkpoint.point = Point.checkout <;>
    simp [h, hp, List.countP_cons, List.countP_append, NEv.isCheckoutCall] <;>
    cases hd : api.notices_post (mkCheckoutData n) <;>
    simp [hd, List.countP_cons, NEv.isCheckoutCall]

lemma sendCheckout_enabled (api : ScieloApi) (n : Notifier)
    (hm : n.manager_integration = true)
    (hp : n.checkpoint.point = Point.checkout) :
    sendCheckoutNotification api n
      = (.ok (), [NEv.checkoutNotifCall, NEv.noticesPost (mkCheckoutData n)] ++
          (match api.notices_post (mkCheckoutData n) with
           | .ok _ => []
           | .error e =>
               [NEv.logErr ("Error posting data to Manager. Message: " ++ e)])) := by
  simp [sendCheckoutNotification, hm, hp]

/-- Claim C8: `end()` on a Notifier whose Checkpoint's Point is `checkout`
triggers exactly one checkout notification attempt, and (with manager
integration enabled) the first payload posted to the registry's notice
stream is exactly the dict with `checkin` the Attempt's `checkin_uri`,
`stage` and `checkpoint` both `checkout`, message `checkout finished` and
status `ok`. -/
theorem C8_end_checkout_notification (api : ScieloApi) (n : Notifier)
    (hp : n.checkpoint.point = Point.checkout) :
    ((Notifier.end' api n).2.2).countP NEv.isCheckoutCall = 1 ∧
      (n.manager_integration = true →
        (((Notifier.end' api n).2.2).filterMap NEv.noticePayload).head?
          = some { checkin := n.checkpoint.attempt.checkin_uri
                   stage := some "checkout", checkpoint := "checkout"
                   message := "checkout finished", status := "ok" }) := by
  have hp' : n.checkpoint.end'.point = Point.checkout := by
    simpa [Checkpoint.end'] using hp
  constructor
  · simp only [Notifier.end']
    set N := ({ n with checkpoint := n.checkpoint.end' } : Notifier) with hN
    rw [if_pos hp']
    rcases h : sendCheckoutNotification api N with ⟨res, t⟩
    have h2 := countP_checkoutCall_sendCheckout api N
    rw [h] at h2
    cases res <;>
      simp_all [List.countP_append, countP_checkoutCall_sendNotice]
  · intro hm
    simp only [Notifier.end']
    set N := ({ n with checkpoint := n.checkpoint.end' } : Notifier) with hN
    rw [if_pos hp']
    rw [sendCheckout_enabled api N hm hp']
    cases hd : api.notices_post (mkCheckoutData N) <;>
      simp [hd, List.filterMap_append, List.filterMap_cons, NEv.noticePayload,
        mkCheckoutData, hN, Checkpoint.end', hp, Point.name]

/-- Claim C8, witness: `end()` on the concrete checkout Notifier with the
always-succeeding oracle triggers one checkout notification attempt whose
payload is the expected checkout-finished dict. -/
theorem C8_witness :
    ((Notifier.end' apiOk nCheckout).2.2).countP NEv.isCheckoutCall = 1 ∧
      (nCheckout.manager_integration = true →
        (((Notifier.end' apiOk nCheckout).2.2).filterMap NEv.noticePayload).head?
          = some { checkin := nCheckout.checkpoint.attempt.checkin_uri
                   stage := some "checkout", checkpoint := "checkout"
                   message := "checkout finished", status := "ok" }) :=
  C8_end_checkout_notification apiOk nCheckout rfl

/-- Claim C1, witness: the unbound-local theorem applied to the concrete
attempt with no print ISSN (and no electronic ISSN) — `transform` raises
`UnboundLocalError` instead of returning with `is_valid = False`. -/
theorem C1_witness :
    (truthyS vAttNoIssn.articlepkg.journal_pissn
        && setupEnvFix.issn_validator (vAttNoIssn.articlepkg.journal_pissn.getD ""))
      = false ∧
      SetupPipe.transform setupEnvFix vAttNoIssn = .error PyErr.unboundLocal :=
  ⟨rfl, C1_setup_pipe_raises_unbound_local setupEnvFix vAttNoIssn rfl⟩

/-- Claim C3: per-item isolation of checkout failures.  A failure raised
during the upload/post sequence of `checkout_procedure_by_attempt` is
caught, a critical log record carrying the package file name is emitted,
the procedure returns normally with `queued_checkout` still set and
`checkout_started_at` still bearing the start timestamp; and the polling
cycle processes every sibling item of the batch independently, each
through its own procedure call. -/
theorem C3_per_item_failure_isolated (env : CheckoutEnv) (a : CAttempt)
    (now : Nat) (hq : a.queued_checkout = true) :
    (∀ e ts, upload_static_files env a.analyzer = (.error e, ts) →
       (checkout_procedure_by_attempt env a now).1.queued_checkout = true ∧
       (checkout_procedure_by_attempt env a now).1.checkout_started_at = some now ∧
       CEv.logCritical (criticalMsg a.analyzer.filename e)
         ∈ (checkout_procedure_by_attempt env a now).2) ∧
      (∀ d ts e tm, upload_static_files env a.analyzer = (.ok d, ts) →
         upload_meta_front env a.analyzer d = (.error e, tm) →
         (checkout_procedure_by_attempt env a now).1.queued_checkout = true ∧
         (checkout_procedure_by_attempt env a now).1.checkout_started_at = some now ∧
         CEv.logCritical (criticalMsg a.analyzer.filename e)
           ∈ (checkout_procedure_by_attempt env a now).2) ∧
      (∀ attempts : List CAttempt,
         (process_attempts env attempts now).length = attempts.length ∧
         ∀ (i : Nat) (b : CAttempt), attempts[i]? = some b →
           (process_attempts env attempts now)[i]?
             = some (checkout_procedure_by_attempt env
                 { b with queued_checkout := true } now)) := by
  refine ⟨?_, ?_, ?_⟩
  · intro e ts h
    simp only [checkout_procedure_by_attempt, h]
    refine ⟨hq, trivial, ?_⟩
    simp [List.mem_append]
  · intro d ts e tm h hmf
    simp only [checkout_procedure_by_attempt, h, hmf]
    refine ⟨hq, trivial, ?_⟩
    simp [List.mem_append]
  · intro attempts
    refine ⟨by simp [process_attempts], ?_⟩
    intro i b hb
    simp [process_attempts, List.getElem?_map, hb]

/-- Claim C3, witness: with a static backend that raises on every send, the
procedure on the concrete attempt returns normally with both flags still
set and the critical log record carrying the package file name emitted. -/
theorem C3_witness :
    (checkout_procedure_by_attempt envSendFail cAttFix 3).1.queued_checkout = true ∧
      (checkout_procedure_by_attempt envSendFail cAttFix 3).1.checkout_started_at
        = some 3 ∧
      CEv.logCritical (criticalMsg cAttFix.analyzer.filename
          (.other "connection reset by peer"))
        ∈ (checkout_procedure_by_attempt envSendFail cAttFix 3).2 :=
  (C3_per_item_failure_isolated envSendFail cAttFix 3 rfl).1
    (.other "connection reset by peer")
    [CEv.staticSend "articles/tmp/a.xml"] rfl

/-- Claim C4, counterexample: when the composite issue filter matches two
distinct issues, the checkout procedure does not fail or require exactly
one match — it succeeds, clears `queued_checkout` and posts the article
against the first matching issue. -/
theorem C4_counterexample_two_issue_matches :
    (envOkTwo.issues_filter (mkIssueFilter cAttFix.analyzer.meta)).length = 2 ∧
      (checkout_procedure_by_attempt envOkTwo cAttFix 5).1.queued_checkout = false ∧
      CEv.articlesPost
          { issue := "/api/v1/issues/1/", front := "FRONT"
            xml_url := "http://static.scielo.org/articles/tmp/a.xml"
            pdf_url := "http://static.scielo.org/articles/tmp/a.pdf"
            images_url := "http://static.scielo.org/articles/tmp/images.zip" }
        ∈ (checkout_procedure_by_attempt envOkTwo cAttFix 5).2 := by
  refine ⟨rfl, ?_, ?_⟩ <;> decide

/-- Claim C4, amended: on a successfully checked-out item the procedure
uploads all static assets first (collecting their returned locators in
`uri_dict`), resolves the owning issue on the external registry as the
first match of the composite filter (at least one match is required —
an empty result raises `StopIteration`), posts the article metadata whose
payload embeds the resolved issue and the three collected locators, and
clears `queued_checkout` only after that post succeeds (a failing post
leaves the flag untouched and is logged). -/
theorem C4_upload_then_post_then_clear (env : CheckoutEnv) (a : CAttempt)
    (now : Nat) (d : List (String × String)) (ts : List CEv) (issue : Issue)
    (rest : List Issue) (front xu pu iu : String)
    (h1 : upload_static_files env a.analyzer = (.ok d, ts))
    (h2 : env.issues_filter (mkIssueFilter a.analyzer.meta) = issue :: rest)
    (h3 : env.front_of a.analyzer.xml = .ok front)
    (h4 : dictGet d "xml" = some xu)
    (h5 : dictGet d "pdf" = some pu)
    (h6 : dictGet d "img" = some iu) :
    (env.articles_post (mkArticleData issue front xu pu iu) = .ok () →
       checkout_procedure_by_attempt env a now
         = ({ a with checkout_started_at := some now, queued_checkout := false },
            [CEv.logInfo ("Starting checkout to attempt: " ++ a.reprS),
             CEv.logInfo ("Set checkout_started_at to: " ++ toString now)] ++ ts ++
            [CEv.logInfo ("Upload static files for attempt: " ++ a.reprS),
             CEv.issuesFilter (mkIssueFilter a.analyzer.meta),
             CEv.articlesPost (mkArticleData issue front xu pu iu),
             CEv.logInfo ("Set queued_checkout to False attempt: " ++ a.reprS)])) ∧
      (∀ e, env.articles_post (mkArticleData issue front xu pu iu) = .error e →
         (checkout_procedure_by_attempt env a now).1.queued_checkout
             = a.queued_checkout ∧
           (checkout_procedure_by_attempt env a now).1.checkout_started_at
             = some now ∧
           CEv.logCritical (criticalMsg a.analyzer.filename e)
             ∈ (checkout_procedure_by_attempt env a now).2) := by
  have hmf : upload_meta_front env a.analyzer d
      = (env.articles_post (mkArticleData issue front xu pu iu),
         [CEv.issuesFilter (mkIssueFilter a.analyzer.meta),
          CEv.articlesPost (mkArticleData issue front xu pu iu)]) := by
    simp only [upload_meta_front, h2, List.head?_cons, h3, h4, h5, h6]
    simp [mkArticleData]
  constructor
  · intro h7
    simp only [checkout_procedure_by_attempt, h1, hmf, h7]
    simp [List.append_assoc]
  · intro e h7
    simp only [checkout_procedure_by_attempt, h1, hmf, h7]
    refine ⟨trivial, trivial, ?_⟩
    simp [List.mem_append]

/-- Claim C4, witness: the amended sequence theorem applied to the concrete
single-match environment — the procedure succeeds, all three uploads
precede the article post, the payload embeds the three locators and the
resolved issue, and the queued flag is cleared. -/
theorem C4_witness :
    checkout_procedure_by_attempt envOkOne cAttFix 3
      = ({ cAttFix with checkout_started_at := some 3, queued_checkout := false },
         [CEv.logInfo ("Starting checkout to attempt: " ++ cAttFix.reprS),
          CEv.logInfo ("Set checkout_started_at to: " ++ toString 3)] ++
         [CEv.staticSend "articles/tmp/a.xml", CEv.staticSend "articles/tmp/a.pdf",
          CEv.staticSend "articles/tmp/images.zip"] ++
         [CEv.logInfo ("Upload static files for attempt: " ++ cAttFix.reprS),
          CEv.issuesFilter (mkIssueFilter cAttFix.analyzer.meta),
          CEv.articlesPost (mkArticleData { resource_uri := "/api/v1/issues/1/" }
            "FRONT" "http://static.scielo.org/articles/tmp/a.xml"
            "http://static.scielo.org/articles/tmp/a.pdf"
            "http://static.scielo.org/articles/tmp/images.zip"),
          CEv.logInfo ("Set queued_checkout to False attempt: " ++ cAttFix.reprS)]) :=
  (C4_upload_then_post_then_clear envOkOne cAttFix 3
    [("xml", "http://static.scielo.org/articles/tmp/a.xml"),
     ("pdf", "http://static.scielo.org/articles/tmp/a.pdf"),
     ("img", "http://static.scielo.org/articles/tmp/images.zip")]
    [CEv.staticSend "articles/tmp/a.xml", CEv.staticSend "articles/tmp/a.pdf",
     CEv.staticSend "articles/tmp/images.zip"]
    { resource_uri := "/api/v1/issues/1/" } [] "FRONT"
    "http://static.scielo.org/articles/tmp/a.xml"
    "http://static.scielo.org/articles/tmp/a.pdf"
    "http://static.scielo.org/articles/tmp/images.zip"
    rfl rfl rfl rfl rfl rfl).1 rfl
